import Mathlib

/-!
Shallow embedding of the jest-fuzzer library (src/index.ts).

The raw randomness source (Math.random) is modelled as an oracle stream
src : Nat → ℚ of samples together with a cursor into it: drawing a sample
reads the stream at the cursor and advances the cursor by one.  A Fuzzer
wraps a generator taking one drawn sample to a value; the generator body may
itself draw further samples by invoking the hidden generate method of other
fuzzers, exactly as the source does through the symbol-keyed method.  JS
numbers are modelled as rationals (samples, floats) and integers where the
source produces integers via Math.floor / Math.ceil.
-/

namespace JestFuzzer

/-- The raw random source: an oracle stream of samples, each intended to lie
in the half-open interval from 0 inclusive to 1 exclusive. -/
abbrev Src : Type := Nat → ℚ

/-- A computation that may draw raw samples: given the oracle stream and the
current cursor, return a result together with the advanced cursor. -/
def RandM (A : Type) : Type := Src → Nat → A × Nat

instance : Monad RandM where
  pure a := fun _ i => (a, i)
  bind m f := fun src i =>
    let r := m src i
    f r.1 src r.2

/-- Draw one fresh raw sample: one call to Math.random. -/
def fresh : RandM ℚ := fun src i => (src i, i + 1)

/-- Number.MAX_SAFE_INTEGER = 2^53 - 1. -/
def MAX_SAFE_INTEGER : ℤ := 2 ^ 53 - 1

/-- Number.MIN_SAFE_INTEGER = -(2^53 - 1). -/
def MIN_SAFE_INTEGER : ℤ := -(2 ^ 53 - 1)

/-- Fuzzer: wraps a private generator from one PRNG sample to a value.  The
generator body may draw further raw samples through the hidden generate
method of the fuzzers it closes over. -/
structure Fuzzer (A : Type) where
  generator : ℚ → RandM A

/-- The hidden generate method: draw a fresh raw sample and run the
generator on it, as in this.generator(Math.random()). -/
def gen {A : Type} (f : Fuzzer A) : RandM A := do
  let p ← fresh
  f.generator p

namespace Fuzzer

/-- Fuzzer.int: weight the sample by the 30th power, then take the ceiling
against MIN_SAFE_INTEGER on the low half and the floor against
MAX_SAFE_INTEGER on the high half. -/
def int : Fuzzer ℤ :=
  ⟨fun prng =>
    let weightedPrng := prng ^ 30
    if prng < 1 / 2 then
      pure ⌈weightedPrng * (MIN_SAFE_INTEGER : ℚ)⌉
    else
      pure ⌊weightedPrng * (MAX_SAFE_INTEGER : ℚ)⌋⟩

/-- Fuzzer.intRange: floor(prng * (max + 1 - min) + min). -/
def intRange (min max : ℤ) : Fuzzer ℤ :=
  ⟨fun prng => pure ⌊prng * ((max : ℚ) + 1 - (min : ℚ)) + (min : ℚ)⌋⟩

/-- Fuzzer.float: a freshly generated int plus the fractional sample. -/
def float : Fuzzer ℚ :=
  ⟨fun prng => do
    let i ← gen int
    pure ((i : ℚ) + prng)⟩

/-- The character-building loop of Fuzzer.string: fill the given number of
slots, each by one fresh generation from intRange 32 126, converted through
String.fromCharCode. -/
def stringChars : Nat → RandM (List Char)
  | 0 => pure []
  | n + 1 => do
    let char ← gen (intRange 32 126)
    let rest ← stringChars n
    pure (Char.ofNat char.toNat :: rest)

/-- Fuzzer.string: length = floor(100 * prng) slots of printable ASCII. -/
def string : Fuzzer String :=
  ⟨fun prng => do
    let length := (⌊100 * prng⌋ : ℤ).toNat
    let chars ← stringChars length
    pure (String.mk chars)⟩

/-- Fuzzer.constant: ignore the sample, return the pre-supplied value. -/
def constant {A : Type} (value : A) : Fuzzer A :=
  ⟨fun _prng => pure value⟩

/-- The element-building loop of Fuzzer.array: fill the given number of
slots, each by one fresh generation from the element fuzzer. -/
def arrayElems {A : Type} (fuzzer : Fuzzer A) : Nat → RandM (List A)
  | 0 => pure []
  | n + 1 => do
    let a ← gen fuzzer
    let rest ← arrayElems fuzzer n
    pure (a :: rest)

/-- Fuzzer.array: length = floor(100 * prng^30) slots, each independently
generated from the element fuzzer. -/
def array {A : Type} (fuzzer : Fuzzer A) : Fuzzer (List A) :=
  ⟨fun prng =>
    let length := (⌊100 * prng ^ 30⌋ : ℤ).toNat
    arrayElems fuzzer length⟩

/-- Fuzzer.map: a new fuzzer whose generator ignores its own sample and
applies func to a fresh generation from the wrapped fuzzer. -/
def map {A B : Type} (fuzzer : Fuzzer A) (func : A → B) : Fuzzer B :=
  ⟨fun _prng => do
    let a ← gen fuzzer
    pure (func a)⟩

/-- Fuzzer.map2. -/
def map2 {A B C : Type} (fuzzerA : Fuzzer A) (fuzzerB : Fuzzer B)
    (func : A → B → C) : Fuzzer C :=
  ⟨fun _prng => do
    let a ← gen fuzzerA
    let b ← gen fuzzerB
    pure (func a b)⟩

/-- Fuzzer.map3. -/
def map3 {A B C D : Type} (fuzzerA : Fuzzer A) (fuzzerB : Fuzzer B)
    (fuzzerC : Fuzzer C) (func : A → B → C → D) : Fuzzer D :=
  ⟨fun _prng => do
    let a ← gen fuzzerA
    let b ← gen fuzzerB
    let c ← gen fuzzerC
    pure (func a b c)⟩

/-- Fuzzer.map4. -/
def map4 {A B C D E : Type} (fuzzerA : Fuzzer A) (fuzzerB : Fuzzer B)
    (fuzzerC : Fuzzer C) (fuzzerD : Fuzzer D)
    (func : A → B → C → D → E) : Fuzzer E :=
  ⟨fun _prng => do
    let a ← gen fuzzerA
    let b ← gen fuzzerB
    let c ← gen fuzzerC
    let d ← gen fuzzerD
    pure (func a b c d)⟩

/-- Fuzzer.map5. -/
def map5 {A B C D E F : Type} (fuzzerA : Fuzzer A) (fuzzerB : Fuzzer B)
    (fuzzerC : Fuzzer C) (fuzzerD : Fuzzer D) (fuzzerE : Fuzzer E)
    (func : A → B → C → D → E → F) : Fuzzer F :=
  ⟨fun _prng => do
    let a ← gen fuzzerA
    let b ← gen fuzzerB
    let c ← gen fuzzerC
    let d ← gen fuzzerD
    let e ← gen fuzzerE
    pure (func a b c d e)⟩

/-- Fuzzer.map6. -/
def map6 {A B C D E F G : Type} (fuzzerA : Fuzzer A) (fuzzerB : Fuzzer B)
    (fuzzerC : Fuzzer C) (fuzzerD : Fuzzer D) (fuzzerE : Fuzzer E)
    (fuzzerF : Fuzzer F) (func : A → B → C → D → E → F → G) : Fuzzer G :=
  ⟨fun _prng => do
    let a ← gen fuzzerA
    let b ← gen fuzzerB
    let c ← gen fuzzerC
    let d ← gen fuzzerD
    let e ← gen fuzzerE
    let f ← gen fuzzerF
    pure (func a b c d e f)⟩

/-- Fuzzer.map7. -/
def map7 {A B C D E F G H : Type} (fuzzerA : Fuzzer A) (fuzzerB : Fuzzer B)
    (fuzzerC : Fuzzer C) (fuzzerD : Fuzzer D) (fuzzerE : Fuzzer E)
    (fuzzerF : Fuzzer F) (fuzzerG : Fuzzer G)
    (func : A → B → C → D → E → F → G → H) : Fuzzer H :=
  ⟨fun _prng => do
    let a ← gen fuzzerA
    let b ← gen fuzzerB
    let c ← gen fuzzerC
    let d ← gen fuzzerD
    let e ← gen fuzzerE
    let f ← gen fuzzerF
    let g ← gen fuzzerG
    pure (func a b c d e f g)⟩

/-- Fuzzer.map8. -/
def map8 {A B C D E F G H I : Type} (fuzzerA : Fuzzer A) (fuzzerB : Fuzzer B)
    (fuzzerC : Fuzzer C) (fuzzerD : Fuzzer D) (fuzzerE : Fuzzer E)
    (fuzzerF : Fuzzer F) (fuzzerG : Fuzzer G) (fuzzerH : Fuzzer H)
    (func : A → B → C → D → E → F → G → H → I) : Fuzzer I :=
  ⟨fun _prng => do
    let a ← gen fuzzerA
    let b ← gen fuzzerB
    let c ← gen fuzzerC
    let d ← gen fuzzerD
    let e ← gen fuzzerE
    let f ← gen fuzzerF
    let g ← gen fuzzerG
    let h ← gen fuzzerH
    pure (func a b c d e f g h)⟩

/-- Fuzzer.andThen, as written in the source: callback(fuzzer.generate()).
The wrapped fuzzer is generated from at the moment andThen itself runs, and
the fuzzer returned by the callback is returned as-is, so constructing the
combinator is itself an effect on the raw source. -/
def andThen {A B : Type} (fuzzer : Fuzzer A) (callback : A → Fuzzer B) :
    RandM (Fuzzer B) := do
  let a ← gen fuzzer
  pure (callback a)

end Fuzzer

-- TESTS

/-- The fixed repetition count of the harness. -/
def TEST_PASSES : Nat := 100

/-- One registration with the host test framework: a display name and a
body; the body may draw raw samples and may fail with an error E (a raised
check-function failure). -/
structure TestUnit (E : Type) where
  name : String
  body : Src → Nat → Except E Unit × Nat

/-- The repetition loop inside the body of fuzz: generate one fresh value
and invoke the check function, stopping on the first raised failure. -/
def fuzzLoop {A E : Type} (fuzzer : Fuzzer A) (func : A → Except E Unit) :
    Nat → Src → Nat → Except E Unit × Nat
  | 0, _, i => (Except.ok (), i)
  | n + 1, src, i =>
    let r := gen fuzzer src i
    match func r.1 with
    | Except.ok () => fuzzLoop fuzzer func n src r.2
    | Except.error e => (Except.error e, r.2)

/-- fuzz: register a single test unit named desc whose body performs
TEST_PASSES repetitions. -/
def fuzz {A E : Type} (fuzzer : Fuzzer A) (desc : String)
    (func : A → Except E Unit) : List (TestUnit E) :=
  [⟨desc, fun src i => fuzzLoop fuzzer func TEST_PASSES src i⟩]

/-- The repetition loop inside the body of fuzz2. -/
def fuzz2Loop {A B E : Type} (fuzzerA : Fuzzer A) (fuzzerB : Fuzzer B)
    (func : A → B → Except E Unit) : Nat → Src → Nat → Except E Unit × Nat
  | 0, _, i => (Except.ok (), i)
  | n + 1, src, i =>
    let ra := gen fuzzerA src i
    let rb := gen fuzzerB src ra.2
    match func ra.1 rb.1 with
    | Except.ok () => fuzz2Loop fuzzerA fuzzerB func n src rb.2
    | Except.error e => (Except.error e, rb.2)

/-- fuzz2: register a single test unit named desc whose body performs
TEST_PASSES repetitions over both fuzzers. -/
def fuzz2 {A B E : Type} (fuzzerA : Fuzzer A) (fuzzerB : Fuzzer B)
    (desc : String) (func : A → B → Except E Unit) : List (TestUnit E) :=
  [⟨desc, fun src i => fuzz2Loop fuzzerA fuzzerB func TEST_PASSES src i⟩]

/-- The repetition loop inside the body of fuzz3. -/
def fuzz3Loop {A B C E : Type} (fuzzerA : Fuzzer A) (fuzzerB : Fuzzer B)
    (fuzzerC : Fuzzer C) (func : A → B → C → Except E Unit) :
    Nat → Src → Nat → Except E Unit × Nat
  | 0, _, i => (Except.ok (), i)
  | n + 1, src, i =>
    let ra := gen fuzzerA src i
    let rb := gen fuzzerB src ra.2
    let rc := gen fuzzerC src rb.2
    match func ra.1 rb.1 rc.1 with
    | Except.ok () => fuzz3Loop fuzzerA fuzzerB fuzzerC func n src rc.2
    | Except.error e => (Except.error e, rc.2)

/-- fuzz3: register a single test unit named desc whose body performs
TEST_PASSES repetitions over all three fuzzers. -/
def fuzz3 {A B C E : Type} (fuzzerA : Fuzzer A) (fuzzerB : Fuzzer B)
    (fuzzerC : Fuzzer C) (desc : String) (func : A → B → C → Except E Unit) :
    List (TestUnit E) :=
  [⟨desc,
    fun src i => fuzz3Loop fuzzerA fuzzerB fuzzerC func TEST_PASSES src i⟩]

/-- The registration loop of fuzzExplained: generate the value eagerly,
interpolate it into the display name, and register a body that invokes the
check function once on exactly that value. -/
def fuzzExplainedLoop {A E : Type} [ToString A] (fuzzer : Fuzzer A)
    (desc : String) (func : A → Except E Unit) :
    Nat → Src → Nat → List (TestUnit E) × Nat
  | 0, _, i => ([], i)
  | n + 1, src, i =>
    let r := gen fuzzer src i
    let rest := fuzzExplainedLoop fuzzer desc func n src r.2
    (⟨desc ++ "\nValue #1: " ++ toString r.1, fun _ j => (func r.1, j)⟩
      :: rest.1, rest.2)

/-- fuzzExplained: register TEST_PASSES separate test units. -/
def fuzzExplained {A E : Type} [ToString A] (fuzzer : Fuzzer A)
    (desc : String) (func : A → Except E Unit) :
    Src → Nat → List (TestUnit E) × Nat :=
  fun src i => fuzzExplainedLoop fuzzer desc func TEST_PASSES src i

/-- The registration loop of fuzz2Explained. -/
def fuzz2ExplainedLoop {A B E : Type} [ToString A] [ToString B]
    (fuzzerA : Fuzzer A) (fuzzerB : Fuzzer B) (desc : String)
    (func : A → B → Except E Unit) :
    Nat → Src → Nat → List (TestUnit E) × Nat
  | 0, _, i => ([], i)
  | n + 1, src, i =>
    let ra := gen fuzzerA src i
    let rb := gen fuzzerB src ra.2
    let rest := fuzz2ExplainedLoop fuzzerA fuzzerB desc func n src rb.2
    (⟨desc ++ "\nValue #1: " ++ toString ra.1 ++ "\nValue #2: "
        ++ toString rb.1,
      fun _ j => (func ra.1 rb.1, j)⟩ :: rest.1, rest.2)

/-- fuzz2Explained: register TEST_PASSES separate test units. -/
def fuzz2Explained {A B E : Type} [ToString A] [ToString B]
    (fuzzerA : Fuzzer A) (fuzzerB : Fuzzer B) (desc : String)
    (func : A → B → Except E Unit) :
    Src → Nat → List (TestUnit E) × Nat :=
  fun src i => fuzz2ExplainedLoop fuzzerA fuzzerB desc func TEST_PASSES src i

/-- The registration loop of fuzz3Explained. -/
def fuzz3ExplainedLoop {A B C E : Type} [ToString A] [ToString B] [ToString C]
    (fuzzerA : Fuzzer A) (fuzzerB : Fuzzer B) (fuzzerC : Fuzzer C)
    (desc : String) (func : A → B → C → Except E Unit) :
    Nat → Src → Nat → List (TestUnit E) × Nat
  | 0, _, i => ([], i)
  | n + 1, src, i =>
    let ra := gen fuzzerA src i
    let rb := gen fuzzerB src ra.2
    let rc := gen fuzzerC src rb.2
    let rest :=
      fuzz3ExplainedLoop fuzzerA fuzzerB fuzzerC desc func n src rc.2
    (⟨desc ++ "\nValue #1: " ++ toString ra.1 ++ "\nValue #2: "
        ++ toString rb.1 ++ "\nValue #3: " ++ toString rc.1,
      fun _ j => (func ra.1 rb.1 rc.1, j)⟩ :: rest.1, rest.2)

/-- fuzz3Explained: register TEST_PASSES separate test units. -/
def fuzz3Explained {A B C E : Type} [ToString A] [ToString B] [ToString C]
    (fuzzerA : Fuzzer A) (fuzzerB : Fuzzer B) (fuzzerC : Fuzzer C)
    (desc : String) (func : A → B → C → Except E Unit) :
    Src → Nat → List (TestUnit E) × Nat :=
  fun src i =>
    fuzz3ExplainedLoop fuzzerA fuzzerB fuzzerC desc func TEST_PASSES src i

-- Concrete raw sources used for witnesses and counterexamples.

/-- A raw source all of whose samples are one half. -/
def halfSrc : Src := fun _ => 1 / 2

/-- A raw source all of whose samples are nine tenths. -/
def nineTenthsSrc : Src := fun _ => 9 / 10

/-- A raw source whose first three samples are pairwise distinct values in
the unit interval, used to probe re-sampling behaviour. -/
def probeSrc : Src := fun n => if n = 0 then 3 / 20 else if n = 1 then 7 / 20 else 11 / 20

-- HELPER LEMMAS

/-- Generating from intRange draws one sample and floors the scaled value. -/
lemma gen_intRange (min max : ℤ) (src : Src) (i : Nat) :
    gen (Fuzzer.intRange min max) src i
      = (⌊src i * ((max : ℚ) + 1 - (min : ℚ)) + (min : ℚ)⌋, i + 1) := rfl

/-- The value produced by the intRange formula lies in the inclusive range
whenever the bounds are ordered and the sample lies in the unit interval. -/
lemma intRange_val_bounds (min max : ℤ) (p : ℚ)
    (hmm : min ≤ max) (h0 : 0 ≤ p) (h1 : p < 1) :
    min ≤ ⌊p * ((max : ℚ) + 1 - (min : ℚ)) + (min : ℚ)⌋
    ∧ ⌊p * ((max : ℚ) + 1 - (min : ℚ)) + (min : ℚ)⌋ ≤ max := by
  have hc : (min : ℚ) ≤ (max : ℚ) := by exact_mod_cast hmm
  have hL : (0 : ℚ) ≤ (max : ℚ) + 1 - (min : ℚ) := by linarith
  constructor
  · apply Int.le_floor.mpr
    have hnn : 0 ≤ p * ((max : ℚ) + 1 - (min : ℚ)) := mul_nonneg h0 hL
    linarith
  · have hlt : ⌊p * ((max : ℚ) + 1 - (min : ℚ)) + (min : ℚ)⌋ < max + 1 := by
      apply Int.floor_lt.mpr
      have hLpos : (0 : ℚ) < (max : ℚ) + 1 - (min : ℚ) := by linarith
      have hm := mul_lt_mul_of_pos_right h1 hLpos
      push_cast
      linarith
    omega

/-- The value produced by one generation from Fuzzer.int, as a conditional
on which half of the unit interval the sample fell into. -/
lemma gen_int_val (src : Src) (i : Nat) :
    (gen Fuzzer.int src i).1 =
      if src i < 1 / 2 then ⌈src i ^ 30 * (MIN_SAFE_INTEGER : ℚ)⌉
      else ⌊src i ^ 30 * (MAX_SAFE_INTEGER : ℚ)⌋ := by
  show ((if src i < 1 / 2
      then (pure ⌈src i ^ 30 * (MIN_SAFE_INTEGER : ℚ)⌉ : RandM ℤ)
      else (pure ⌊src i ^ 30 * (MAX_SAFE_INTEGER : ℚ)⌋ : RandM ℤ)) src (i + 1)).1 = _
  by_cases h : src i < 1 / 2
  · rw [if_pos h, if_pos h]
    rfl
  · rw [if_neg h, if_neg h]
    rfl

/-- Both branches of the int formula stay inside the safe-integer range. -/
lemma int_val_bounds (p : ℚ) (h0 : 0 ≤ p) (h1 : p < 1) :
    MIN_SAFE_INTEGER ≤ (if p < 1 / 2 then ⌈p ^ 30 * (MIN_SAFE_INTEGER : ℚ)⌉
        else ⌊p ^ 30 * (MAX_SAFE_INTEGER : ℚ)⌋)
    ∧ (if p < 1 / 2 then ⌈p ^ 30 * (MIN_SAFE_INTEGER : ℚ)⌉
        else ⌊p ^ 30 * (MAX_SAFE_INTEGER : ℚ)⌋) ≤ MAX_SAFE_INTEGER := by
  have hw0 : (0 : ℚ) ≤ p ^ 30 := pow_nonneg h0 30
  have hw1 : p ^ 30 ≤ 1 := pow_le_one₀ h0 h1.le
  have hMIN : (MIN_SAFE_INTEGER : ℚ) ≤ 0 := by norm_num [MIN_SAFE_INTEGER]
  have hMAX : (0 : ℚ) ≤ (MAX_SAFE_INTEGER : ℚ) := by norm_num [MAX_SAFE_INTEGER]
  by_cases h : p < 1 / 2
  · rw [if_pos h]
    constructor
    · have hlow := mul_le_mul_of_nonpos_right hw1 hMIN
      have hle : (MIN_SAFE_INTEGER : ℚ) ≤ p ^ 30 * (MIN_SAFE_INTEGER : ℚ) := by
        linarith
      have hcast : (MIN_SAFE_INTEGER : ℚ) ≤ (⌈p ^ 30 * (MIN_SAFE_INTEGER : ℚ)⌉ : ℚ) :=
        hle.trans (Int.le_ceil _)
      exact_mod_cast hcast
    · have hup : p ^ 30 * (MIN_SAFE_INTEGER : ℚ) ≤ ((0 : ℤ) : ℚ) := by
        have hm := mul_le_mul_of_nonneg_left hMIN hw0
        push_cast
        linarith
      have h2 := Int.ceil_le.mpr hup
      have h3 : (0 : ℤ) ≤ MAX_SAFE_INTEGER := by norm_num [MAX_SAFE_INTEGER]
      omega
  · rw [if_neg h]
    constructor
    · have hlow : ((0 : ℤ) : ℚ) ≤ p ^ 30 * (MAX_SAFE_INTEGER : ℚ) := by
        push_cast
        exact mul_nonneg hw0 hMAX
      have h2 := Int.le_floor.mpr hlow
      have h3 : MIN_SAFE_INTEGER ≤ (0 : ℤ) := by norm_num [MIN_SAFE_INTEGER]
      omega
    · have hup : p ^ 30 * (MAX_SAFE_INTEGER : ℚ) ≤ (MAX_SAFE_INTEGER : ℚ) :=
        mul_le_of_le_one_left hMAX hw1
      calc ⌊p ^ 30 * (MAX_SAFE_INTEGER : ℚ)⌋
          ≤ ⌊(MAX_SAFE_INTEGER : ℚ)⌋ := Int.floor_le_floor hup
        _ = MAX_SAFE_INTEGER := Int.floor_intCast _

-- CLAIM THEOREMS

/-- C9: every generation from constant value returns exactly the pre-supplied
value itself, independent of the raw sample, drawing one (ignored) sample,
for any invocation point. -/
theorem constant_spec : ∀ {A : Type} (value : A) (src : Src) (i : Nat),
    gen (Fuzzer.constant value) src i = (value, i + 1) :=
  fun _ _ _ => rfl

/-- C5: for ordered integer bounds and a raw sample in the unit interval, a
generation from intRange min max returns floor(p * (max + 1 - min) + min),
and that integer lies in the inclusive interval from min to max. -/
theorem intRange_spec (min max : ℤ) (src : Src) (i : Nat)
    (hmm : min ≤ max) (h0 : 0 ≤ src i) (h1 : src i < 1) :
    (gen (Fuzzer.intRange min max) src i).1
        = ⌊src i * ((max : ℚ) + 1 - (min : ℚ)) + (min : ℚ)⌋
      ∧ min ≤ (gen (Fuzzer.intRange min max) src i).1
      ∧ (gen (Fuzzer.intRange min max) src i).1 ≤ max := by
  refine ⟨rfl, ?_, ?_⟩
  · exact (intRange_val_bounds min max (src i) hmm h0 h1).1
  · exact (intRange_val_bounds min max (src i) hmm h0 h1).2

/-- Witness for C5 at min 0, max 5 and the all-halves source. -/
theorem intRange_spec_witness :
    ((0 : ℤ) ≤ 5 ∧ (0 : ℚ) ≤ halfSrc 0 ∧ halfSrc 0 < 1)
    ∧ (0 : ℤ) ≤ (gen (Fuzzer.intRange 0 5) halfSrc 0).1
    ∧ (gen (Fuzzer.intRange 0 5) halfSrc 0).1 ≤ 5 :=
  ⟨⟨by norm_num, by norm_num [halfSrc], by norm_num [halfSrc]⟩,
   (intRange_spec 0 5 halfSrc 0 (by norm_num) (by norm_num [halfSrc])
     (by norm_num [halfSrc])).2.1,
   (intRange_spec 0 5 halfSrc 0 (by norm_num) (by norm_num [halfSrc])
     (by norm_num [halfSrc])).2.2⟩

/-- C2: a generation from map applies the transform to a value freshly
generated from the wrapped fuzzer during that same invocation, and a
generation from each of map2 through map8 generates the input fuzzers
left to right, each generation starting at the cursor the previous one left,
applying the transform to the results in argument order. -/
theorem map_family_spec :
    ∀ {A1 A2 A3 A4 A5 A6 A7 A8 R : Type}
      (g1 : Fuzzer A1) (g2 : Fuzzer A2) (g3 : Fuzzer A3) (g4 : Fuzzer A4)
      (g5 : Fuzzer A5) (g6 : Fuzzer A6) (g7 : Fuzzer A7) (g8 : Fuzzer A8)
      (f1 : A1 → R) (f2 : A1 → A2 → R) (f3 : A1 → A2 → A3 → R)
      (f4 : A1 → A2 → A3 → A4 → R) (f5 : A1 → A2 → A3 → A4 → A5 → R)
      (f6 : A1 → A2 → A3 → A4 → A5 → A6 → R)
      (f7 : A1 → A2 → A3 → A4 → A5 → A6 → A7 → R)
      (f8 : A1 → A2 → A3 → A4 → A5 → A6 → A7 → A8 → R)
      (src : Src) (i : Nat),
      gen (Fuzzer.map g1 f1) src i
          = (let r1 := gen g1 src (i + 1)
             (f1 r1.1, r1.2))
      ∧ gen (Fuzzer.map2 g1 g2 f2) src i
          = (let r1 := gen g1 src (i + 1)
             let r2 := gen g2 src r1.2
             (f2 r1.1 r2.1, r2.2))
      ∧ gen (Fuzzer.map3 g1 g2 g3 f3) src i
          = (let r1 := gen g1 src (i + 1)
             let r2 := gen g2 src r1.2
             let r3 := gen g3 src r2.2
             (f3 r1.1 r2.1 r3.1, r3.2))
      ∧ gen (Fuzzer.map4 g1 g2 g3 g4 f4) src i
          = (let r1 := gen g1 src (i + 1)
             let r2 := gen g2 src r1.2
             let r3 := gen g3 src r2.2
             let r4 := gen g4 src r3.2
             (f4 r1.1 r2.1 r3.1 r4.1, r4.2))
      ∧ gen (Fuzzer.map5 g1 g2 g3 g4 g5 f5) src i
          = (let r1 := gen g1 src (i + 1)
             let r2 := gen g2 src r1.2
             let r3 := gen g3 src r2.2
             let r4 := gen g4 src r3.2
             let r5 := gen g5 src r4.2
             (f5 r1.1 r2.1 r3.1 r4.1 r5.1, r5.2))
      ∧ gen (Fuzzer.map6 g1 g2 g3 g4 g5 g6 f6) src i
          = (let r1 := gen g1 src (i + 1)
             let r2 := gen g2 src r1.2
             let r3 := gen g3 src r2.2
             let r4 := gen g4 src r3.2
             let r5 := gen g5 src r4.2
             let r6 := gen g6 src r5.2
             (f6 r1.1 r2.1 r3.1 r4.1 r5.1 r6.1, r6.2))
      ∧ gen (Fuzzer.map7 g1 g2 g3 g4 g5 g6 g7 f7) src i
          = (let r1 := gen g1 src (i + 1)
             let r2 := gen g2 src r1.2
             let r3 := gen g3 src r2.2
             let r4 := gen g4 src r3.2
             let r5 := gen g5 src r4.2
             let r6 := gen g6 src r5.2
             let r7 := gen g7 src r6.2
             (f7 r1.1 r2.1 r3.1 r4.1 r5.1 r6.1 r7.1, r7.2))
      ∧ gen (Fuzzer.map8 g1 g2 g3 g4 g5 g6 g7 g8 f8) src i
          = (let r1 := gen g1 src (i + 1)
             let r2 := gen g2 src r1.2
             let r3 := gen g3 src r2.2
             let r4 := gen g4 src r3.2
             let r5 := gen g5 src r4.2
             let r6 := gen g6 src r5.2
             let r7 := gen g7 src r6.2
             let r8 := gen g8 src r7.2
             (f8 r1.1 r2.1 r3.1 r4.1 r5.1 r6.1 r7.1 r8.1, r8.2)) :=
  fun _ _ _ _ _ _ _ _ _ _ _ _ _ _ _ _ _ _ =>
    ⟨rfl, rfl, rfl, rfl, rfl, rfl, rfl, rfl⟩

/-- C6: a generation from the int primitive stays within the inclusive
safe-integer range, and a generation from the float primitive (an int
generation plus the fractional sample) stays within the same range widened
by one above; in particular both are finite. -/
theorem int_float_finite (src : Src) (i : Nat)
    (h0 : 0 ≤ src i) (h1 : src i < 1)
    (h2 : 0 ≤ src (i + 1)) (h3 : src (i + 1) < 1) :
    (MIN_SAFE_INTEGER ≤ (gen Fuzzer.int src i).1
      ∧ (gen Fuzzer.int src i).1 ≤ MAX_SAFE_INTEGER)
    ∧ ((MIN_SAFE_INTEGER : ℚ) ≤ (gen Fuzzer.float src i).1
      ∧ (gen Fuzzer.float src i).1 < (MAX_SAFE_INTEGER : ℚ) + 1) := by
  have hi : MIN_SAFE_INTEGER ≤ (gen Fuzzer.int src i).1
      ∧ (gen Fuzzer.int src i).1 ≤ MAX_SAFE_INTEGER := by
    rw [gen_int_val]
    exact int_val_bounds (src i) h0 h1
  have hi2 : MIN_SAFE_INTEGER ≤ (gen Fuzzer.int src (i + 1)).1
      ∧ (gen Fuzzer.int src (i + 1)).1 ≤ MAX_SAFE_INTEGER := by
    rw [gen_int_val]
    exact int_val_bounds (src (i + 1)) h2 h3
  have hfloat : (gen Fuzzer.float src i).1
      = ((gen Fuzzer.int src (i + 1)).1 : ℚ) + src i := rfl
  refine ⟨hi, ?_, ?_⟩
  · rw [hfloat]
    have hc : (MIN_SAFE_INTEGER : ℚ) ≤ ((gen Fuzzer.int src (i + 1)).1 : ℚ) := by
      exact_mod_cast hi2.1
    linarith
  · rw [hfloat]
    have hc : ((gen Fuzzer.int src (i + 1)).1 : ℚ) ≤ (MAX_SAFE_INTEGER : ℚ) := by
      exact_mod_cast hi2.2
    linarith

/-- Witness for C6 at the all-halves source. -/
theorem int_float_finite_witness :
    ((0 : ℚ) ≤ halfSrc 0 ∧ halfSrc 0 < 1)
    ∧ (MIN_SAFE_INTEGER ≤ (gen Fuzzer.int halfSrc 0).1
      ∧ (gen Fuzzer.int halfSrc 0).1 ≤ MAX_SAFE_INTEGER)
    ∧ ((MIN_SAFE_INTEGER : ℚ) ≤ (gen Fuzzer.float halfSrc 0).1
      ∧ (gen Fuzzer.float halfSrc 0).1 < (MAX_SAFE_INTEGER : ℚ) + 1) :=
  ⟨⟨by norm_num [halfSrc], by norm_num [halfSrc]⟩,
   (int_float_finite halfSrc 0 (by norm_num [halfSrc]) (by norm_num [halfSrc])
     (by norm_num [halfSrc]) (by norm_num [halfSrc])).1,
   (int_float_finite halfSrc 0 (by norm_num [halfSrc]) (by norm_num [halfSrc])
     (by norm_num [halfSrc]) (by norm_num [halfSrc])).2⟩

/-- C10: every int generation is at least the ceiling of 2 to the minus 30
times MIN_SAFE_INTEGER, which equals -8388607, while the positive branch
reaches far larger magnitudes (witnessed at the nine-tenths source), so the
output range is sharply asymmetric around zero. -/
theorem int_asymmetric_low_bound (src : Src) (i : Nat)
    (h0 : 0 ≤ src i) (_h1 : src i < 1) :
    ⌈((1 : ℚ) / 2) ^ 30 * (MIN_SAFE_INTEGER : ℚ)⌉ = -8388607
    ∧ -8388607 ≤ (gen Fuzzer.int src i).1
    ∧ 8388607 < (gen Fuzzer.int nineTenthsSrc 0).1 := by
  refine ⟨?_, ?_, ?_⟩
  · rw [Int.ceil_eq_iff]
    norm_num [MIN_SAFE_INTEGER]
  · rw [gen_int_val]
    by_cases h : src i < 1 / 2
    · rw [if_pos h]
      have hw : src i ^ 30 ≤ ((1 : ℚ) / 2) ^ 30 := pow_le_pow_left₀ h0 h.le 30
      have hMIN : (MIN_SAFE_INTEGER : ℚ) ≤ 0 := by norm_num [MIN_SAFE_INTEGER]
      have hmul := mul_le_mul_of_nonpos_right hw hMIN
      have hceil := Int.ceil_le_ceil hmul
      have hc : ⌈((1 : ℚ) / 2) ^ 30 * (MIN_SAFE_INTEGER : ℚ)⌉ = -8388607 := by
        rw [Int.ceil_eq_iff]
        norm_num [MIN_SAFE_INTEGER]
      omega
    · rw [if_neg h]
      have hfl : ((0 : ℤ) : ℚ) ≤ src i ^ 30 * (MAX_SAFE_INTEGER : ℚ) := by
        push_cast
        exact mul_nonneg (pow_nonneg h0 30) (by norm_num [MAX_SAFE_INTEGER])
      have h2 := Int.le_floor.mpr hfl
      omega
  · rw [gen_int_val]
    rw [if_neg (by norm_num [nineTenthsSrc] : ¬ nineTenthsSrc 0 < 1 / 2)]
    have hfl : ((8388608 : ℤ) : ℚ) ≤ nineTenthsSrc 0 ^ 30 * (MAX_SAFE_INTEGER : ℚ) := by
      norm_num [nineTenthsSrc, MAX_SAFE_INTEGER]
    have h2 := Int.le_floor.mpr hfl
    omega

/-- Witness for C10 at the all-halves source. -/
theorem int_asymmetric_low_bound_witness :
    ((0 : ℚ) ≤ halfSrc 0 ∧ halfSrc 0 < 1)
    ∧ -8388607 ≤ (gen Fuzzer.int halfSrc 0).1 :=
  ⟨⟨by norm_num [halfSrc], by norm_num [halfSrc]⟩,
   (int_asymmetric_low_bound halfSrc 0 (by norm_num [halfSrc])
     (by norm_num [halfSrc])).2.1⟩

-- Helper lemmas about the array element loop.

/-- The element loop at zero slots draws nothing. -/
lemma arrayElems_zero {A : Type} (g : Fuzzer A) (src : Src) (i : Nat) :
    Fuzzer.arrayElems g 0 src i = ([], i) := rfl

/-- The element loop at a successor: one fresh generation from the element
fuzzer fills the head slot, the remaining slots continue from the cursor
that generation left. -/
lemma arrayElems_succ {A : Type} (g : Fuzzer A) (n : Nat) (src : Src) (i : Nat) :
    Fuzzer.arrayElems g (n + 1) src i
      = ((gen g src i).1 :: (Fuzzer.arrayElems g n src (gen g src i).2).1,
         (Fuzzer.arrayElems g n src (gen g src i).2).2) := rfl

/-- The element loop fills exactly the requested number of slots. -/
lemma arrayElems_length {A : Type} (g : Fuzzer A) :
    ∀ (n : Nat) (src : Src) (i : Nat),
      (Fuzzer.arrayElems g n src i).1.length = n := by
  intro n
  induction n with
  | zero => intro src i; rfl
  | succ n ih =>
    intro src i
    rw [arrayElems_succ]
    simp [ih]

/-- C7: a generation from array g has length floor(100 * p^30), which lies
in the interval from 0 inclusive to 100 exclusive and may be exactly 0, and
the sequence is built by the element loop in which every slot is filled by
its own fresh generation from g, each starting at the cursor the previous
generation left. -/
theorem array_spec {A : Type} (g : Fuzzer A) (src : Src) (i : Nat)
    (h0 : 0 ≤ src i) (h1 : src i < 1) :
    (gen (Fuzzer.array g) src i).1
        = (Fuzzer.arrayElems g (⌊100 * src i ^ 30⌋).toNat src (i + 1)).1
    ∧ (gen (Fuzzer.array g) src i).1.length = (⌊100 * src i ^ 30⌋).toNat
    ∧ ⌊100 * src i ^ 30⌋ < 100 ∧ 0 ≤ ⌊100 * src i ^ 30⌋
    ∧ (∀ (n j : Nat), Fuzzer.arrayElems g (n + 1) src j
        = ((gen g src j).1 :: (Fuzzer.arrayElems g n src (gen g src j).2).1,
           (Fuzzer.arrayElems g n src (gen g src j).2).2))
    ∧ (gen (Fuzzer.array g) (fun _ => 0) 0).1 = [] := by
  refine ⟨rfl, ?_, ?_, ?_, fun n j => arrayElems_succ g n src j, ?_⟩
  · exact arrayElems_length g ((⌊100 * src i ^ 30⌋).toNat) src (i + 1)
  · apply Int.floor_lt.mpr
    have hp : src i ^ 30 < 1 := pow_lt_one₀ h0 h1 (by norm_num)
    push_cast
    linarith
  · apply Int.le_floor.mpr
    push_cast
    positivity
  · show (Fuzzer.arrayElems g (⌊100 * (0 : ℚ) ^ 30⌋).toNat (fun _ => 0) 1).1 = []
    rw [show (⌊100 * (0 : ℚ) ^ 30⌋).toNat = 0 by norm_num]
    rfl

/-- Witness for C7 with a constant element fuzzer at the nine-tenths
source, where the drawn length is positive. -/
theorem array_spec_witness :
    ((0 : ℚ) ≤ nineTenthsSrc 0 ∧ nineTenthsSrc 0 < 1)
    ∧ (gen (Fuzzer.array (Fuzzer.constant (0 : ℤ))) nineTenthsSrc 0).1.length
        = (⌊100 * nineTenthsSrc 0 ^ 30⌋).toNat :=
  ⟨⟨by norm_num [nineTenthsSrc], by norm_num [nineTenthsSrc]⟩,
   (array_spec (Fuzzer.constant (0 : ℤ)) nineTenthsSrc 0
     (by norm_num [nineTenthsSrc]) (by norm_num [nineTenthsSrc])).2.1⟩

-- Helper lemmas about the string character loop.

/-- The character loop at zero slots draws nothing. -/
lemma stringChars_zero (src : Src) (i : Nat) :
    Fuzzer.stringChars 0 src i = ([], i) := rfl

/-- The character loop at a successor: one fresh generation from
intRange 32 126 fills the head slot, the remaining slots continue from the
cursor that generation left. -/
lemma stringChars_succ (n : Nat) (src : Src) (i : Nat) :
    Fuzzer.stringChars (n + 1) src i
      = (Char.ofNat (gen (Fuzzer.intRange 32 126) src i).1.toNat
          :: (Fuzzer.stringChars n src (gen (Fuzzer.intRange 32 126) src i).2).1,
         (Fuzzer.stringChars n src (gen (Fuzzer.intRange 32 126) src i).2).2) := rfl

/-- The character loop fills exactly the requested number of slots. -/
lemma stringChars_length :
    ∀ (n : Nat) (src : Src) (i : Nat),
      (Fuzzer.stringChars n src i).1.length = n := by
  intro n
  induction n with
  | zero => intro src i; rfl
  | succ n ih =>
    intro src i
    rw [stringChars_succ]
    simp [ih]

/-- Converting a small code point to a character and back is the identity. -/
lemma char_ofNat_toNat_small : ∀ n < 127, (Char.ofNat n).toNat = n := by decide

/-- Every character the loop produces has a printable ASCII code point. -/
lemma stringChars_codes (src : Src) (hsrc : ∀ j, 0 ≤ src j ∧ src j < 1) :
    ∀ (n i : Nat), ∀ c ∈ (Fuzzer.stringChars n src i).1,
      32 ≤ c.toNat ∧ c.toNat ≤ 126 := by
  intro n
  induction n with
  | zero =>
    intro i c hc
    rw [stringChars_zero] at hc
    simp at hc
  | succ n ih =>
    intro i c hc
    rw [stringChars_succ] at hc
    rcases List.mem_cons.mp hc with h | h
    · subst h
      have hb := intRange_val_bounds 32 126 (src i) (by norm_num)
        (hsrc i).1 (hsrc i).2
      have h32 : (32 : ℤ) ≤ (gen (Fuzzer.intRange 32 126) src i).1 := hb.1
      have h126 : (gen (Fuzzer.intRange 32 126) src i).1 ≤ 126 := hb.2
      have hr := char_ofNat_toNat_small
        (gen (Fuzzer.intRange 32 126) src i).1.toNat (by omega)
      rw [hr]
      omega
    · exact ih (gen (Fuzzer.intRange 32 126) src i).2 c h

/-- C8: a generation from the string primitive has length floor(100 * p),
which lies in the interval from 0 inclusive to 100 exclusive, and every
character of the produced string has a code point between 32 and 126
inclusive, each drawn by its own intRange 32 126 generation. -/
theorem string_spec (src : Src) (i : Nat)
    (hsrc : ∀ j, 0 ≤ src j ∧ src j < 1) :
    (gen Fuzzer.string src i).1.length = (⌊100 * src i⌋).toNat
    ∧ ⌊100 * src i⌋ < 100 ∧ 0 ≤ ⌊100 * src i⌋
    ∧ ∀ c ∈ (gen Fuzzer.string src i).1.data,
        32 ≤ c.toNat ∧ c.toNat ≤ 126 := by
  refine ⟨?_, ?_, ?_, ?_⟩
  · exact stringChars_length ((⌊100 * src i⌋).toNat) src (i + 1)
  · apply Int.floor_lt.mpr
    push_cast
    linarith [(hsrc i).2]
  · apply Int.le_floor.mpr
    push_cast
    linarith [(hsrc i).1]
  · exact fun c hc =>
      stringChars_codes src hsrc ((⌊100 * src i⌋).toNat) (i + 1) c hc

/-- Witness for C8 at the all-halves source, where the produced string has
fifty characters. -/
theorem string_spec_witness :
    (∀ j, 0 ≤ halfSrc j ∧ halfSrc j < 1)
    ∧ (gen Fuzzer.string halfSrc 0).1.length = (⌊100 * halfSrc 0⌋).toNat :=
  ⟨fun _ => ⟨by norm_num [halfSrc], by norm_num [halfSrc]⟩,
   (string_spec halfSrc 0
     (fun _ => ⟨by norm_num [halfSrc], by norm_num [halfSrc]⟩)).1⟩

/-- With a constant fuzzer and an always-passing check, the batched loop
completes all its repetitions, drawing exactly one raw sample per
repetition. -/
lemma fuzzLoop_constant_ok {A E : Type} (v : A) :
    ∀ (n : Nat) (src : Src) (i : Nat),
      fuzzLoop (Fuzzer.constant v) (fun _ => (Except.ok () : Except E Unit)) n src i
        = (Except.ok (), i + n) := by
  intro n
  induction n with
  | zero => intro src i; rfl
  | succ n ih =>
    intro src i
    calc fuzzLoop (Fuzzer.constant v)
          (fun _ => (Except.ok () : Except E Unit)) (n + 1) src i
        = fuzzLoop (Fuzzer.constant v)
            (fun _ => (Except.ok () : Except E Unit)) n src (i + 1) := rfl
      _ = (Except.ok (), i + 1 + n) := ih src (i + 1)
      _ = (Except.ok (), i + (n + 1)) := by
            rw [Nat.add_assoc, Nat.add_comm 1 n]

/-- C3: fuzz, fuzz2 and fuzz3 each register exactly one test unit named by
the given description, whose body runs the repetition loop TEST_PASSES (one
hundred) times; each repetition generates one fresh value per supplied
fuzzer, left to right, and invokes the check function with them
positionally, a raised failure aborting the remaining repetitions (shown by
the loop recurrences, by the loop completing all repetitions under an
always-passing check, and by the loop stopping after the first repetition
under an always-failing check). -/
theorem fuzz_family_spec :
    ∀ {A B C E : Type} (fuzzerA : Fuzzer A) (fuzzerB : Fuzzer B)
      (fuzzerC : Fuzzer C) (desc : String)
      (func1 : A → Except E Unit) (func2 : A → B → Except E Unit)
      (func3 : A → B → C → Except E Unit)
      (src : Src) (i n : Nat) (v : A),
      TEST_PASSES = 100
      ∧ fuzz fuzzerA desc func1
          = [⟨desc, fun s j => fuzzLoop fuzzerA func1 TEST_PASSES s j⟩]
      ∧ fuzz2 fuzzerA fuzzerB desc func2
          = [⟨desc, fun s j => fuzz2Loop fuzzerA fuzzerB func2 TEST_PASSES s j⟩]
      ∧ fuzz3 fuzzerA fuzzerB fuzzerC desc func3
          = [⟨desc,
              fun s j => fuzz3Loop fuzzerA fuzzerB fuzzerC func3 TEST_PASSES s j⟩]
      ∧ fuzzLoop fuzzerA func1 0 src i = (Except.ok (), i)
      ∧ fuzzLoop fuzzerA func1 (n + 1) src i
          = (let r := gen fuzzerA src i
             match func1 r.1 with
             | Except.ok () => fuzzLoop fuzzerA func1 n src r.2
             | Except.error err => (Except.error err, r.2))
      ∧ fuzz2Loop fuzzerA fuzzerB func2 (n + 1) src i
          = (let ra := gen fuzzerA src i
             let rb := gen fuzzerB src ra.2
             match func2 ra.1 rb.1 with
             | Except.ok () => fuzz2Loop fuzzerA fuzzerB func2 n src rb.2
             | Except.error err => (Except.error err, rb.2))
      ∧ fuzz3Loop fuzzerA fuzzerB fuzzerC func3 (n + 1) src i
          = (let ra := gen fuzzerA src i
             let rb := gen fuzzerB src ra.2
             let rc := gen fuzzerC src rb.2
             match func3 ra.1 rb.1 rc.1 with
             | Except.ok () => fuzz3Loop fuzzerA fuzzerB fuzzerC func3 n src rc.2
             | Except.error err => (Except.error err, rc.2))
      ∧ fuzzLoop (Fuzzer.constant v) (fun _ => (Except.ok () : Except E Unit)) n src i
          = (Except.ok (), i + n)
      ∧ ∀ (e : E), fuzzLoop (Fuzzer.constant v)
            (fun _ => (Except.error e : Except E Unit)) (n + 1) src i
          = (Except.error e, i + 1) :=
  fun _ _ _ _ _ _ _ src i n v =>
    ⟨rfl, rfl, rfl, rfl, rfl, rfl, rfl, rfl,
     fuzzLoop_constant_ok v n src i, fun _ => rfl⟩

-- Helper lemmas about the explained registration loops.

/-- One step of the explained loop: the value is generated eagerly, baked
into the display name, and the registered body applies the check function
to exactly that value; the remaining registrations continue from the cursor
the generation left. -/
lemma fuzzExplainedLoop_succ {A E : Type} [ToString A] (fuzzer : Fuzzer A)
    (desc : String) (func : A → Except E Unit) (n : Nat) (src : Src) (i : Nat) :
    fuzzExplainedLoop fuzzer desc func (n + 1) src i
      = (⟨desc ++ "\nValue #1: " ++ toString (gen fuzzer src i).1,
          fun _ j => (func (gen fuzzer src i).1, j)⟩
          :: (fuzzExplainedLoop fuzzer desc func n src (gen fuzzer src i).2).1,
         (fuzzExplainedLoop fuzzer desc func n src (gen fuzzer src i).2).2) := rfl

/-- The explained loop registers exactly one unit per repetition. -/
lemma fuzzExplainedLoop_length {A E : Type} [ToString A] (fuzzer : Fuzzer A)
    (desc : String) (func : A → Except E Unit) :
    ∀ (n : Nat) (src : Src) (i : Nat),
      (fuzzExplainedLoop fuzzer desc func n src i).1.length = n := by
  intro n
  induction n with
  | zero => intro src i; rfl
  | succ n ih =>
    intro src i
    rw [fuzzExplainedLoop_succ]
    simp [ih]

/-- Every registered explained unit displays some generated value in its
name and its body applies the check function to exactly that value. -/
lemma fuzzExplainedLoop_mem {A E : Type} [ToString A] (fuzzer : Fuzzer A)
    (desc : String) (func : A → Except E Unit) :
    ∀ (n : Nat) (src : Src) (i : Nat),
      ∀ u ∈ (fuzzExplainedLoop fuzzer desc func n src i).1,
        ∃ a, u.name = desc ++ "\nValue #1: " ++ toString a
          ∧ u.body = fun _ j => (func a, j) := by
  intro n
  induction n with
  | zero =>
    intro src i u hu
    rw [show fuzzExplainedLoop fuzzer desc func 0 src i = ([], i) from rfl] at hu
    simp at hu
  | succ n ih =>
    intro src i u hu
    rw [fuzzExplainedLoop_succ] at hu
    rcases List.mem_cons.mp hu with h | h
    · exact ⟨(gen fuzzer src i).1, by rw [h], by rw [h]⟩
    · exact ih src (gen fuzzer src i).2 u h

/-- One step of the two-fuzzer explained loop. -/
lemma fuzz2ExplainedLoop_succ {A B E : Type} [ToString A] [ToString B]
    (fuzzerA : Fuzzer A) (fuzzerB : Fuzzer B) (desc : String)
    (func : A → B → Except E Unit) (n : Nat) (src : Src) (i : Nat) :
    fuzz2ExplainedLoop fuzzerA fuzzerB desc func (n + 1) src i
      = (let ra := gen fuzzerA src i
         let rb := gen fuzzerB src ra.2
         (⟨desc ++ "\nValue #1: " ++ toString ra.1 ++ "\nValue #2: "
             ++ toString rb.1,
           fun _ j => (func ra.1 rb.1, j)⟩
           :: (fuzz2ExplainedLoop fuzzerA fuzzerB desc func n src rb.2).1,
          (fuzz2ExplainedLoop fuzzerA fuzzerB desc func n src rb.2).2)) := rfl

/-- The two-fuzzer explained loop registers one unit per repetition. -/
lemma fuzz2ExplainedLoop_length {A B E : Type} [ToString A] [ToString B]
    (fuzzerA : Fuzzer A) (fuzzerB : Fuzzer B) (desc : String)
    (func : A → B → Except E Unit) :
    ∀ (n : Nat) (src : Src) (i : Nat),
      (fuzz2ExplainedLoop fuzzerA fuzzerB desc func n src i).1.length = n := by
  intro n
  induction n with
  | zero => intro src i; rfl
  | succ n ih =>
    intro src i
    rw [fuzz2ExplainedLoop_succ]
    simp [ih]

/-- Every two-fuzzer explained unit displays its two generated values and
its body applies the check function to exactly those values. -/
lemma fuzz2ExplainedLoop_mem {A B E : Type} [ToString A] [ToString B]
    (fuzzerA : Fuzzer A) (fuzzerB : Fuzzer B) (desc : String)
    (func : A → B → Except E Unit) :
    ∀ (n : Nat) (src : Src) (i : Nat),
      ∀ u ∈ (fuzz2ExplainedLoop fuzzerA fuzzerB desc func n src i).1,
        ∃ a b, u.name = desc ++ "\nValue #1: " ++ toString a
            ++ "\nValue #2: " ++ toString b
          ∧ u.body = fun _ j => (func a b, j) := by
  intro n
  induction n with
  | zero =>
    intro src i u hu
    rw [show fuzz2ExplainedLoop fuzzerA fuzzerB desc func 0 src i
        = ([], i) from rfl] at hu
    simp at hu
  | succ n ih =>
    intro src i u hu
    rw [fuzz2ExplainedLoop_succ] at hu
    rcases List.mem_cons.mp hu with h | h
    · exact ⟨(gen fuzzerA src i).1,
        (gen fuzzerB src (gen fuzzerA src i).2).1, by rw [h], by rw [h]⟩
    · exact ih src (gen fuzzerB src (gen fuzzerA src i).2).2 u h

/-- One step of the three-fuzzer explained loop. -/
lemma fuzz3ExplainedLoop_succ {A B C E : Type} [ToString A] [ToString B]
    [ToString C] (fuzzerA : Fuzzer A) (fuzzerB : Fuzzer B) (fuzzerC : Fuzzer C)
    (desc : String) (func : A → B → C → Except E Unit)
    (n : Nat) (src : Src) (i : Nat) :
    fuzz3ExplainedLoop fuzzerA fuzzerB fuzzerC desc func (n + 1) src i
      = (let ra := gen fuzzerA src i
         let rb := gen fuzzerB src ra.2
         let rc := gen fuzzerC src rb.2
         (⟨desc ++ "\nValue #1: " ++ toString ra.1 ++ "\nValue #2: "
             ++ toString rb.1 ++ "\nValue #3: " ++ toString rc.1,
           fun _ j => (func ra.1 rb.1 rc.1, j)⟩
           :: (fuzz3ExplainedLoop fuzzerA fuzzerB fuzzerC desc func n src rc.2).1,
          (fuzz3ExplainedLoop fuzzerA fuzzerB fuzzerC desc func n src rc.2).2))
      := rfl

/-- The three-fuzzer explained loop registers one unit per repetition. -/
lemma fuzz3ExplainedLoop_length {A B C E : Type} [ToString A] [ToString B]
    [ToString C] (fuzzerA : Fuzzer A) (fuzzerB : Fuzzer B) (fuzzerC : Fuzzer C)
    (desc : String) (func : A → B → C → Except E Unit) :
    ∀ (n : Nat) (src : Src) (i : Nat),
      (fuzz3ExplainedLoop fuzzerA fuzzerB fuzzerC desc func n src i).1.length
        = n := by
  intro n
  induction n with
  | zero => intro src i; rfl
  | succ n ih =>
    intro src i
    rw [fuzz3ExplainedLoop_succ]
    simp [ih]

/-- Every three-fuzzer explained unit displays its three generated values
and its body applies the check function to exactly those values. -/
lemma fuzz3ExplainedLoop_mem {A B C E : Type} [ToString A] [ToString B]
    [ToString C] (fuzzerA : Fuzzer A) (fuzzerB : Fuzzer B) (fuzzerC : Fuzzer C)
    (desc : String) (func : A → B → C → Except E Unit) :
    ∀ (n : Nat) (src : Src) (i : Nat),
      ∀ u ∈ (fuzz3ExplainedLoop fuzzerA fuzzerB fuzzerC desc func n src i).1,
        ∃ a b c, u.name = desc ++ "\nValue #1: " ++ toString a
            ++ "\nValue #2: " ++ toString b ++ "\nValue #3: " ++ toString c
          ∧ u.body = fun _ j => (func a b c, j) := by
  intro n
  induction n with
  | zero =>
    intro src i u hu
    rw [show fuzz3ExplainedLoop fuzzerA fuzzerB fuzzerC desc func 0 src i
        = ([], i) from rfl] at hu
    simp at hu
  | succ n ih =>
    intro src i u hu
    rw [fuzz3ExplainedLoop_succ] at hu
    rcases List.mem_cons.mp hu with h | h
    · exact ⟨(gen fuzzerA src i).1,
        (gen fuzzerB src (gen fuzzerA src i).2).1,
        (gen fuzzerC src (gen fuzzerB src (gen fuzzerA src i).2).2).1,
        by rw [h], by rw [h]⟩
    · exact ih src
        (gen fuzzerC src (gen fuzzerB src (gen fuzzerA src i).2).2).2 u h

/-- C4: fuzzExplained, fuzz2Explained and fuzz3Explained each register
exactly TEST_PASSES (one hundred) separate test units; for each unit the
values are generated eagerly before the unit is registered and are
interpolated into the unit name, and the unit body invokes the check
function exactly once with exactly those pre-generated values. -/
theorem fuzzExplained_family_spec {A B C E : Type} [ToString A] [ToString B]
    [ToString C] (fuzzerA : Fuzzer A) (fuzzerB : Fuzzer B) (fuzzerC : Fuzzer C)
    (desc : String) (func1 : A → Except E Unit) (func2 : A → B → Except E Unit)
    (func3 : A → B → C → Except E Unit) (src : Src) (i n : Nat) :
    TEST_PASSES = 100
    ∧ (fuzzExplained fuzzerA desc func1 src i).1.length = TEST_PASSES
    ∧ (fuzz2Explained fuzzerA fuzzerB desc func2 src i).1.length = TEST_PASSES
    ∧ (fuzz3Explained fuzzerA fuzzerB fuzzerC desc func3 src i).1.length
        = TEST_PASSES
    ∧ fuzzExplainedLoop fuzzerA desc func1 (n + 1) src i
        = (⟨desc ++ "\nValue #1: " ++ toString (gen fuzzerA src i).1,
            fun _ j => (func1 (gen fuzzerA src i).1, j)⟩
            :: (fuzzExplainedLoop fuzzerA desc func1 n src (gen fuzzerA src i).2).1,
           (fuzzExplainedLoop fuzzerA desc func1 n src (gen fuzzerA src i).2).2)
    ∧ fuzz2ExplainedLoop fuzzerA fuzzerB desc func2 (n + 1) src i
        = (let ra := gen fuzzerA src i
           let rb := gen fuzzerB src ra.2
           (⟨desc ++ "\nValue #1: " ++ toString ra.1 ++ "\nValue #2: "
               ++ toString rb.1,
             fun _ j => (func2 ra.1 rb.1, j)⟩
             :: (fuzz2ExplainedLoop fuzzerA fuzzerB desc func2 n src rb.2).1,
            (fuzz2ExplainedLoop fuzzerA fuzzerB desc func2 n src rb.2).2))
    ∧ fuzz3ExplainedLoop fuzzerA fuzzerB fuzzerC desc func3 (n + 1) src i
        = (let ra := gen fuzzerA src i
           let rb := gen fuzzerB src ra.2
           let rc := gen fuzzerC src rb.2
           (⟨desc ++ "\nValue #1: " ++ toString ra.1 ++ "\nValue #2: "
               ++ toString rb.1 ++ "\nValue #3: " ++ toString rc.1,
             fun _ j => (func3 ra.1 rb.1 rc.1, j)⟩
             :: (fuzz3ExplainedLoop fuzzerA fuzzerB fuzzerC desc func3 n src rc.2).1,
            (fuzz3ExplainedLoop fuzzerA fuzzerB fuzzerC desc func3 n src rc.2).2))
    ∧ (∀ u ∈ (fuzzExplained fuzzerA desc func1 src i).1,
        ∃ a, u.name = desc ++ "\nValue #1: " ++ toString a
          ∧ u.body = fun _ j => (func1 a, j))
    ∧ (∀ u ∈ (fuzz2Explained fuzzerA fuzzerB desc func2 src i).1,
        ∃ a b, u.name = desc ++ "\nValue #1: " ++ toString a
            ++ "\nValue #2: " ++ toString b
          ∧ u.body = fun _ j => (func2 a b, j))
    ∧ (∀ u ∈ (fuzz3Explained fuzzerA fuzzerB fuzzerC desc func3 src i).1,
        ∃ a b c, u.name = desc ++ "\nValue #1: " ++ toString a
            ++ "\nValue #2: " ++ toString b ++ "\nValue #3: " ++ toString c
          ∧ u.body = fun _ j => (func3 a b c, j)) :=
  ⟨rfl,
   fuzzExplainedLoop_length fuzzerA desc func1 TEST_PASSES src i,
   fuzz2ExplainedLoop_length fuzzerA fuzzerB desc func2 TEST_PASSES src i,
   fuzz3ExplainedLoop_length fuzzerA fuzzerB fuzzerC desc func3 TEST_PASSES src i,
   fuzzExplainedLoop_succ fuzzerA desc func1 n src i,
   fuzz2ExplainedLoop_succ fuzzerA fuzzerB desc func2 n src i,
   fuzz3ExplainedLoop_succ fuzzerA fuzzerB fuzzerC desc func3 n src i,
   fun u hu => fuzzExplainedLoop_mem fuzzerA desc func1 TEST_PASSES src i u hu,
   fun u hu =>
     fuzz2ExplainedLoop_mem fuzzerA fuzzerB desc func2 TEST_PASSES src i u hu,
   fun u hu =>
     fuzz3ExplainedLoop_mem fuzzerA fuzzerB fuzzerC desc func3 TEST_PASSES
       src i u hu⟩

/-- C1: evaluation of andThen as written in the source at a concrete probe
source.  Constructing andThen(intRange 0 9, constant) already advances the
raw cursor from 0 to 1 (a sample is consumed at construction time), and
both subsequent generations from the resulting fuzzer return 1, the value
drawn from the wrapped fuzzer at construction — even though fresh
generations from intRange 0 9 at those same cursor positions would return
3 and 5.  The wrapped fuzzer is therefore not re-sampled on each
generation, contrary to the claim. -/
theorem andThen_eager_consumption :
    (Fuzzer.andThen (Fuzzer.intRange 0 9) Fuzzer.constant probeSrc 0).2 = 1
    ∧ (gen (Fuzzer.andThen (Fuzzer.intRange 0 9) Fuzzer.constant probeSrc 0).1
        probeSrc 1).1 = 1
    ∧ (gen (Fuzzer.andThen (Fuzzer.intRange 0 9) Fuzzer.constant probeSrc 0).1
        probeSrc 2).1 = 1
    ∧ (gen (Fuzzer.intRange 0 9) probeSrc 1).1 = 3
    ∧ (gen (Fuzzer.intRange 0 9) probeSrc 2).1 = 5 := by
  refine ⟨rfl, ?_, ?_, ?_, ?_⟩
  · show ⌊probeSrc 0 * (((9 : ℤ) : ℚ) + 1 - ((0 : ℤ) : ℚ)) + ((0 : ℤ) : ℚ)⌋ = 1
    rw [show probeSrc 0 = 3 / 20 from rfl, Int.floor_eq_iff]
    norm_num
  · show ⌊probeSrc 0 * (((9 : ℤ) : ℚ) + 1 - ((0 : ℤ) : ℚ)) + ((0 : ℤ) : ℚ)⌋ = 1
    rw [show probeSrc 0 = 3 / 20 from rfl, Int.floor_eq_iff]
    norm_num
  · show ⌊probeSrc 1 * (((9 : ℤ) : ℚ) + 1 - ((0 : ℤ) : ℚ)) + ((0 : ℤ) : ℚ)⌋ = 3
    rw [show probeSrc 1 = 7 / 20 from rfl, Int.floor_eq_iff]
    norm_num
  · show ⌊probeSrc 2 * (((9 : ℤ) : ℚ) + 1 - ((0 : ℤ) : ℚ)) + ((0 : ℤ) : ℚ)⌋ = 5
    rw [show probeSrc 2 = 11 / 20 from rfl, Int.floor_eq_iff]
    norm_num

end JestFuzzer
